import Mathlib

/-!
Verification of the tagged-types repository: a shallow embedding of the
`TaggedType` wrapper (src/lib/src/tagged_type.rs and submodules), the marker
catalogue (src/lib/src/traits.rs, traits/cmp.rs), the permissive aggregator
(src/lib/src/traits/permissive.rs) and the derive-macro generator
(src/derive/src/lib.rs), together with theorems settling the specification
claims.
-/

namespace TaggedTypes

/-- The fixed catalogue of capability markers, one per marker trait of the
library (src/lib/src/traits.rs, src/lib/src/traits/cmp.rs and the serde
markers re-exported in src/lib/src/lib.rs).  Spec names in order:
inner-access, value-map, reference-clone, as-reference, deref-to-inner,
default-construct, clone, copy, partial-equality, equality, partial-order,
order, hash, parse-from-text, construct-from-inner, add, sub, mul, div,
debug-format, display-format, serialize, deserialize. -/
inductive Marker where
  | innerAccess
  | valueMap
  | cloned
  | asRef
  | implementDeref
  | implementDefault
  | implementClone
  | implementCopy
  | implementPartialEq
  | implementEq
  | implementPartialOrd
  | implementOrd
  | implementHash
  | transparentFromStr
  | fromInner
  | implementAdd
  | implementSub
  | implementMul
  | implementDiv
  | transparentDebug
  | transparentDisplay
  | transparentSerialize
  | transparentDeserialize
deriving DecidableEq

/-- The set of markers granted by the blanket implications of the permissive
aggregator, one line per `impl<T> M for T where T: Permissive` in
src/lib/src/traits/permissive.rs lines 62-84 (with the serde feature on).
`fromInner` holds through the `TransparentFromInner` blanket impl together
with `impl<T: TransparentFromInner> FromInner for T` (src/lib/src/traits.rs
line 210).  No blanket impl exists for `ValueMap`, `Cloned`, `AsRef` or
`ImplementDeref`, so those four are not implied. -/
def permissiveImplies : Marker → Bool
  | .innerAccess => true
  | .implementCopy => true
  | .implementClone => true
  | .implementDefault => true
  | .implementPartialEq => true
  | .implementEq => true
  | .implementPartialOrd => true
  | .implementOrd => true
  | .implementHash => true
  | .implementAdd => true
  | .implementSub => true
  | .implementMul => true
  | .implementDiv => true
  | .transparentDebug => true
  | .transparentDisplay => true
  | .fromInner => true
  | .transparentFromStr => true
  | .transparentSerialize => true
  | .transparentDeserialize => true
  | .valueMap => false
  | .cloned => false
  | .asRef => false
  | .implementDeref => false

/-- A brand (tag) type, abstracted by the set of markers it has been granted.
In Rust a marker grant is the compile-time fact `impl M for T {}`; here it is
`T.grants m = true`. -/
structure Tag where
  grants : Marker → Bool

/-- A brand type that explicitly grants every individual marker of the
catalogue. -/
def allTag : Tag := { grants := fun _ => true }

/-- A brand type whose grants are exactly those implied by the permissive
aggregator. -/
def permissiveTag : Tag := { grants := permissiveImplies }

/-- The wrapper `TaggedType<Value, Tag>` (src/lib/src/tagged_type.rs lines
102-105): holds one value of the underlying type; the brand is a phantom
parameter with zero runtime storage, embedded here as a value-level index. -/
structure TaggedType (V : Type) (T : Tag) where
  v : V

/-- `TaggedType::new` (src/lib/src/tagged_type.rs lines 107-116): wraps the
inner value; requires no marker. -/
def TaggedType.new {V : Type} {T : Tag} (v : V) : TaggedType V T :=
  { v := v }

/-- `TaggedType::inner` (src/lib/src/tagged_type.rs lines 118-123, gated on
`T: InnerAccess`): reference to the inner data, embedded as the value. -/
def TaggedType.inner {V : Type} {T : Tag} (x : TaggedType V T) : V :=
  x.v

/-- `TaggedType::into_inner` (src/lib/src/tagged_type.rs lines 125-129, gated
on `T: InnerAccess`): moves the inner data out. -/
def TaggedType.into_inner {V : Type} {T : Tag} (x : TaggedType V T) : V :=
  x.v

/-- `TaggedType::<&V, T>::cloned` (src/lib/src/tagged_type.rs lines 132-139,
gated on `V: Clone`, `T: Cloned`): `TaggedType::new(self.v.clone())`.  The
borrowed value type `&V` is embedded as `V`; `V::clone` is the explicit
function `c`. -/
def TaggedType.cloned {V : Type} {T : Tag} (c : V → V) (x : TaggedType V T) :
    TaggedType V T :=
  TaggedType.new (c x.v)

/-- `TaggedType::as_ref` (src/lib/src/tagged_type.rs lines 166-189, gated on
`T: AsRef`): `TaggedType::<&V, T>::new(&self.v)`, converting
`&TaggedType<V, T>` to `TaggedType<&V, T>`; the borrow is embedded as the
value itself. -/
def TaggedType.as_ref {V : Type} {T : Tag} (x : TaggedType V T) :
    TaggedType V T :=
  TaggedType.new x.v

/-- `Default for TaggedType` (src/lib/src/tagged_type.rs lines 219-227, gated
on `V: Default`, `T: ImplementDefault`): builds the wrapper around
`V::default()`, passed here explicitly as `d`. -/
def TaggedType.default {V : Type} {T : Tag} (d : V) : TaggedType V T :=
  { v := d }

/-- `FromStr for TaggedType` (src/lib/src/tagged_type.rs lines 243-253, gated
on `V: FromStr`, `T: TransparentFromStr`): `Ok(Self { v: V::from_str(s)? })`.
`V::from_str` is the explicit function `p`; `Err` propagates unchanged via
the `?` operator. -/
def TaggedType.from_str {V E : Type} {T : Tag} (p : String → Except E V)
    (s : String) : Except E (TaggedType V T) :=
  match p s with
  | .error e => .error e
  | .ok v => .ok (TaggedType.new v)

/-- `Serialize for TaggedType` (src/lib/src/tagged_type/serde.rs lines 7-18,
gated on `V: Serialize`, `T: TransparentSerialize`):
`self.v.serialize(serializer)`.  The external serializer collaborator is the
function `sr` from values to a fallible output. -/
def TaggedType.serialize {V O E : Type} {T : Tag} (sr : V → Except E O)
    (x : TaggedType V T) : Except E O :=
  sr x.v

/-- `Deserialize for TaggedType` (src/lib/src/tagged_type/serde.rs lines
20-31, gated on `V: Deserialize`, `T: TransparentDeserialize`):
`V::deserialize(deserializer).map(Self::new)`.  The external deserializer
collaborator is the function `de` from inputs to a fallible value. -/
def TaggedType.deserialize {V I E : Type} {T : Tag} (de : I → Except E V)
    (i : I) : Except E (TaggedType V T) :=
  (de i).map TaggedType.new

/-- `PartialEq for TaggedType` (src/lib/src/tagged_type/cmp.rs lines 10-18,
gated on `V: PartialEq`, `T: ImplementPartialEq`): `self.v.eq(&other.v)`,
with `V`'s equality passed as `eqV`. -/
def TaggedType.eq {V : Type} {T : Tag} (eqV : V → V → Bool)
    (a b : TaggedType V T) : Bool :=
  eqV a.v b.v

/-- `Ord for TaggedType` (src/lib/src/tagged_type/cmp.rs lines 38-47, gated
on `V: Ord` and the full chain `T: ImplementOrd + ImplementPartialOrd +
ImplementPartialEq + ImplementEq`): `self.v.cmp(&other.v)`, with `V`'s
comparison passed as `cmpV`. -/
def TaggedType.cmp {V : Type} {T : Tag} (cmpV : V → V → Ordering)
    (a b : TaggedType V T) : Ordering :=
  cmpV a.v b.v

/-- The brand-side availability condition of the `Ord` implementation,
translated from the where-clause of src/lib/src/tagged_type/cmp.rs lines
38-42: `T: ImplementOrd + ImplementPartialOrd + ImplementPartialEq +
ImplementEq` (the `V: Ord` bound is carried by the `cmpV` argument of
`TaggedType.cmp`). -/
def ordBound (T : Tag) : Bool :=
  T.grants .implementOrd && T.grants .implementPartialOrd &&
    T.grants .implementPartialEq && T.grants .implementEq

/-- An attribute block attached to a brand-type declaration: its path name
(one of "implement", "transparent", "capability", "permissive") and the
identifiers listed inside it (empty for the bare permissive flag). -/
structure Attribute where
  name : String
  idents : List String
deriving DecidableEq

/-- The derive input seen by the generator (`syn::DeriveInput`): the brand
type's identifier and its attribute blocks in source order. -/
structure DeriveInput where
  ident : String
  attrs : List Attribute
deriving DecidableEq

/-- An item of the emitted token stream: either a marker grant
`impl Trait for Target {}` or a `compile_error!` invocation. -/
inductive OutItem where
  | grant (traitName : String) (target : String)
  | compileError (msg : String)
deriving DecidableEq

/-- `find_attr` (src/derive/src/lib.rs lines 90-95): the first attribute of
the derive input whose path matches the given name. -/
def find_attr (d : DeriveInput) (attrName : String) : Option Attribute :=
  d.attrs.find? (fun a => a.name == attrName)

/-- The capability-list lookup from `handle_capability`
(src/derive/src/lib.rs lines 120-152): maps each recognized capability name
to the marker trait it grants; unrecognized names have no entry. -/
def capabilityLookup : String → Option String
  | "inner_access" => some "InnerAccess"
  | "from_inner" => some "FromInner"
  | "value_map" => some "ValueMap"
  | "cloned" => some "Cloned"
  | "as_ref" => some "AsRef"
  | _ => none

/-- The names accepted by `handle_implement` (src/derive/src/lib.rs lines
167-168). -/
def implementNames : List String :=
  ["Default", "Clone", "Copy", "PartialEq", "Eq", "PartialOrd", "Ord",
   "Hash", "Deref", "Add", "Sub", "Mul", "Div"]

/-- The implement-list lookup (src/derive/src/lib.rs lines 166-174): each
accepted name `s` grants the marker `Implement{s}`. -/
def implementLookup (s : String) : Option String :=
  if implementNames.contains s then some ("Implement" ++ s) else none

/-- The names accepted by `handle_transparent` (src/derive/src/lib.rs line
190). -/
def transparentNames : List String :=
  ["Display", "Debug", "FromStr", "Serialize", "Deserialize"]

/-- The transparent-list lookup (src/derive/src/lib.rs lines 189-195): each
accepted name `s` grants the marker `Transparent{s}`. -/
def transparentLookup (s : String) : Option String :=
  if transparentNames.contains s then some ("Transparent" ++ s) else none

/-- The error text of `handle_capability` for an unrecognized name
(src/derive/src/lib.rs line 152). -/
def capabilityErr (v : String) : String :=
  "Don\x27t know capability: " ++ v

/-- The error text of `handle_implement` for an unrecognized name
(src/derive/src/lib.rs line 175). -/
def implementErr (v : String) : String :=
  "Don\x27t know how to implement: " ++ v

/-- The error text of `handle_transparent` for an unrecognized name
(src/derive/src/lib.rs line 197). -/
def transparentErr (v : String) : String :=
  "Don\x27t know how to make " ++ v ++ " transparent"

/-- `attr.parse_nested_meta(logic)` followed by
`Err(e) => out.extend(e.into_compile_error())` as used by the three list
handlers (src/derive/src/lib.rs lines 120-157, 165-180, 188-202): the listed
identifiers are processed left to right; each recognized one extends the
output with its grant; the first unrecognized one aborts the parse, so the
output ends with its compile error and the remaining identifiers are never
processed. -/
def parseNestedMeta (lookup : String → Option String)
    (errMsg : String → String) (target : String) :
    List String → List OutItem
  | [] => []
  | v :: rest =>
    match lookup v with
    | some tr => OutItem.grant tr target :: parseNestedMeta lookup errMsg target rest
    | none => [OutItem.compileError (errMsg v)]

/-- `handle_capability` (src/derive/src/lib.rs lines 116-159). -/
def handle_capability (d : DeriveInput) : List OutItem :=
  match find_attr d "capability" with
  | none => []
  | some attr => parseNestedMeta capabilityLookup capabilityErr d.ident attr.idents

/-- `handle_implement` (src/derive/src/lib.rs lines 161-182). -/
def handle_implement (d : DeriveInput) : List OutItem :=
  match find_attr d "implement" with
  | none => []
  | some attr => parseNestedMeta implementLookup implementErr d.ident attr.idents

/-- `handle_transparent` (src/derive/src/lib.rs lines 184-204). -/
def handle_transparent (d : DeriveInput) : List OutItem :=
  match find_attr d "transparent" with
  | none => []
  | some attr => parseNestedMeta transparentLookup transparentErr d.ident attr.idents

/-- The message of the conflicting-declaration error (src/derive/src/lib.rs
line 103). -/
def permissiveOnlyMsg : String :=
  "permissive must be the only attribute in derive"

/-- `handle_permissive` (src/derive/src/lib.rs lines 97-114): returns whether
the permissive attribute was found, together with the output it produced —
a compile error when any other attribute accompanies it
(`derive.attrs.len() > 1`), otherwise the single `Permissive` grant. -/
def handle_permissive (d : DeriveInput) : Bool × List OutItem :=
  match find_attr d "permissive" with
  | none => (false, [])
  | some _ =>
    if d.attrs.length > 1 then
      (true, [OutItem.compileError permissiveOnlyMsg])
    else
      (true, [OutItem.grant "Permissive" d.ident])

/-- `derive_tag` (src/derive/src/lib.rs lines 79-88): if the permissive
handler fired, its output is the whole emission; otherwise the capability,
implement and transparent handlers run in that fixed order and their outputs
are concatenated. -/
def derive_tag (d : DeriveInput) : List OutItem :=
  let p := handle_permissive d
  if p.1 then p.2
  else handle_capability d ++ handle_implement d ++ handle_transparent d

/-! ## Theorems settling the claims -/

/-- C1: for every value v of the underlying type V and every brand type T
granted the inner-access marker, `TaggedType::new(v).into_inner()` returns
exactly v (round-trip identity), and `inner()` on that wrapper returns
exactly v. -/
theorem new_into_inner_roundtrip (V : Type) (T : Tag)
    (h : T.grants Marker.innerAccess = true) (v : V) :
    (TaggedType.new v : TaggedType V T).into_inner = v ∧
      (TaggedType.new v : TaggedType V T).inner = v :=
  ⟨rfl, rfl⟩

/-- Witness for C1 at V = Nat, the all-granting tag and v = 42. -/
theorem new_into_inner_roundtrip_witness :
    (TaggedType.new 42 : TaggedType Nat allTag).into_inner = 42 ∧
      (TaggedType.new 42 : TaggedType Nat allTag).inner = 42 :=
  new_into_inner_roundtrip Nat allTag (by decide) 42

/-- C5: the `Ord` implementation on the wrapper is bounded by exactly the
full transitive marker chain — order, partial-order, equality and
partial-equality together (`V`'s ordering being the `cmpV` collaborator) —
and under that precondition comparing two wrappers returns exactly the
ordering of their inner values. -/
theorem ord_full_chain_and_delegates (V : Type) (T : Tag)
    (cmpV : V → V → Ordering) (a b : TaggedType V T) :
    (ordBound T = true ↔
      (T.grants Marker.implementOrd = true ∧
        T.grants Marker.implementPartialOrd = true ∧
        T.grants Marker.implementPartialEq = true ∧
        T.grants Marker.implementEq = true)) ∧
      (ordBound T = true → TaggedType.cmp cmpV a b = cmpV a.v b.v) := by
  constructor
  · simp [ordBound, Bool.and_assoc]
  · intro _
    rfl

/-- Witness for C5 at V = Nat, the all-granting tag and the wrappers of 1
and 2. -/
theorem ord_full_chain_and_delegates_witness :
    TaggedType.cmp compare (TaggedType.new 1 : TaggedType Nat allTag)
      (TaggedType.new 2) = compare 1 2 :=
  (ord_full_chain_and_delegates Nat allTag compare (TaggedType.new 1)
    (TaggedType.new 2)).2 (by decide)

/-- C6: for every brand type T granted parse-from-text, parsing a text s
that the underlying parser accepts yields a wrapper whose inner value equals
the parsed value, and parsing a text the underlying parser rejects yields
exactly the same failure value, propagated unchanged. -/
theorem from_str_transparent (V E : Type) (T : Tag)
    (h : T.grants Marker.transparentFromStr = true)
    (p : String → Except E V) (s : String) :
    (∀ v, p s = Except.ok v →
      (TaggedType.from_str p s : Except E (TaggedType V T)) =
        Except.ok (TaggedType.new v)) ∧
      (∀ e, p s = Except.error e →
        (TaggedType.from_str p s : Except E (TaggedType V T)) =
          Except.error e) := by
  constructor
  · intro v hv
    simp [TaggedType.from_str, hv]
  · intro e he
    simp [TaggedType.from_str, he]

/-- A concrete underlying parser for the C6 witness: accepts only the text
"7". -/
def natSevenParse (s : String) : Except String Nat :=
  if s == "7" then Except.ok 7 else Except.error ("invalid: " ++ s)

/-- Witness for C6: with the all-granting tag, the accepted text "7" parses
to the wrapper of 7 and the rejected text "x" propagates the error. -/
theorem from_str_transparent_witness :
    (TaggedType.from_str natSevenParse "7" :
        Except String (TaggedType Nat allTag)) =
      Except.ok (TaggedType.new 7) ∧
      (TaggedType.from_str natSevenParse "x" :
          Except String (TaggedType Nat allTag)) =
        Except.error ("invalid: " ++ "x") :=
  ⟨(from_str_transparent Nat String allTag (by decide) natSevenParse
      "7").1 7 (by rfl),
    (from_str_transparent Nat String allTag (by decide) natSevenParse
      "x").2 ("invalid: " ++ "x") (by rfl)⟩

/-- C7: for every brand type T granted serialize and deserialize,
serializing the wrapper of v produces exactly the output of serializing v
alone (success and failure passed through unchanged); deserializing input
the underlying deserializer accepts yields the wrapper of its result; hence
when the external collaborators round-trip v, serialize-then-deserialize
returns the wrapper of the original value. -/
theorem serde_transparent (V O E F : Type) (T : Tag)
    (hs : T.grants Marker.transparentSerialize = true)
    (hd : T.grants Marker.transparentDeserialize = true)
    (sr : V → Except E O) (de : O → Except F V) (v : V) :
    TaggedType.serialize sr (TaggedType.new v : TaggedType V T) = sr v ∧
      (∀ i u, de i = Except.ok u →
        (TaggedType.deserialize de i : Except F (TaggedType V T)) =
          Except.ok (TaggedType.new u)) ∧
      (∀ o, sr v = Except.ok o → de o = Except.ok v →
        (TaggedType.deserialize de o : Except F (TaggedType V T)) =
          Except.ok (TaggedType.new v)) := by
  refine ⟨rfl, ?_, ?_⟩
  · intro i u hu
    simp [TaggedType.deserialize, hu, Except.map]
  · intro o _ hrt
    simp [TaggedType.deserialize, hrt, Except.map]

/-- A concrete serializer for the C7 witness: renders a Nat as its decimal
text. -/
def natSer (n : Nat) : Except String String :=
  Except.ok (Nat.repr n)

/-- A concrete deserializer for the C7 witness: accepts only the text "5". -/
def natDe (s : String) : Except String Nat :=
  if s == "5" then Except.ok 5 else Except.error s

/-- Witness for C7 at v = 5 with the all-granting tag and the concrete
decimal collaborators. -/
theorem serde_transparent_witness :
    TaggedType.serialize natSer (TaggedType.new 5 : TaggedType Nat allTag) =
        natSer 5 ∧
      (TaggedType.deserialize natDe "5" :
          Except String (TaggedType Nat allTag)) =
        Except.ok (TaggedType.new 5) := by
  have h := serde_transparent Nat String String String allTag (by decide)
    (by decide) natSer natDe 5
  exact ⟨h.1, h.2.2 "5" (by rfl) (by rfl)⟩

/-- C9: for every brand type T granted default-construct, with V's own
default value d, the default-constructed wrapper's inner value equals d:
`Wrapper::default().into_inner() == V::default()`. -/
theorem default_into_inner (V : Type) (T : Tag)
    (h : T.grants Marker.implementDefault = true) (d : V) :
    (TaggedType.default d : TaggedType V T).into_inner = d :=
  rfl

/-- Witness for C9 at V = Nat (whose default is 0) and the all-granting
tag. -/
theorem default_into_inner_witness :
    (TaggedType.default 0 : TaggedType Nat allTag).into_inner = 0 :=
  default_into_inner Nat allTag (by decide) 0

/-- C10: for every wrapper w whose brand carries the as-reference and
reference-clone markers, with V's clone operation c, the composition
`w.as_ref().cloned()` is the owned wrapper (same brand) of a clone of w's
inner value, and `as_ref` only borrows: its result views exactly w's inner
value, leaving w unchanged. -/
theorem as_ref_cloned (V : Type) (T : Tag)
    (ha : T.grants Marker.asRef = true)
    (hc : T.grants Marker.cloned = true)
    (c : V → V) (w : TaggedType V T) :
    TaggedType.cloned c (TaggedType.as_ref w) = TaggedType.new (c w.v) ∧
      (TaggedType.cloned c (TaggedType.as_ref w)).v = c w.v ∧
      (TaggedType.as_ref w).v = w.v :=
  ⟨rfl, rfl, rfl⟩

/-- Witness for C10 at V = Nat, the all-granting tag, the identity clone and
w = new 9. -/
theorem as_ref_cloned_witness :
    TaggedType.cloned id (TaggedType.as_ref
        (TaggedType.new 9 : TaggedType Nat allTag)) =
      TaggedType.new (id 9) :=
  (as_ref_cloned Nat allTag (by decide) (by decide) id
    (TaggedType.new 9)).1

/-- Helper: a run of recognized names at the front of a list is processed
into exactly one grant per name, after which processing continues with the
remainder of the list. -/
theorem parseNestedMeta_valid_prefix (lookup : String → Option String)
    (errMsg : String → String) (target : String) (pre rest : List String)
    (hpre : ∀ v ∈ pre, (lookup v).isSome = true) :
    parseNestedMeta lookup errMsg target (pre ++ rest) =
      pre.map (fun v => OutItem.grant ((lookup v).getD "") target) ++
        parseNestedMeta lookup errMsg target rest := by
  induction pre with
  | nil => simp
  | cons x xs ih =>
    have hx : (lookup x).isSome = true := hpre x (by simp)
    cases hlx : lookup x with
    | none => rw [hlx] at hx; simp at hx
    | some t =>
      simp [parseNestedMeta, hlx, ih (fun v hv => hpre v (by simp [hv]))]

/-- Counterexample to C2 as stated: the permissive aggregator has no blanket
implication for the value-map, reference-clone, as-reference and
deref-to-inner markers of the catalogue, so permissive does not imply every
marker in the catalogue. -/
theorem permissive_missing_markers :
    permissiveImplies Marker.valueMap = false ∧
      permissiveImplies Marker.cloned = false ∧
      permissiveImplies Marker.asRef = false ∧
      permissiveImplies Marker.implementDeref = false ∧
      ¬ (∀ m : Marker, permissiveImplies m = true) :=
  ⟨rfl, rfl, rfl, rfl, fun h => absurd (h Marker.valueMap) (by decide)⟩

/-- C2 (amended): a brand type granted permissive structurally receives
every marker of the catalogue except value-map, reference-clone,
as-reference and deref-to-inner, and hence behaves for those behaviors like
a brand type explicitly granting each of them. -/
theorem permissive_implies_catalogue (m : Marker)
    (h1 : m ≠ Marker.valueMap) (h2 : m ≠ Marker.cloned)
    (h3 : m ≠ Marker.asRef) (h4 : m ≠ Marker.implementDeref) :
    permissiveImplies m = true := by
  cases m <;> simp_all [permissiveImplies]

/-- Witness for C2 (amended) at the inner-access marker. -/
theorem permissive_implies_catalogue_witness :
    permissiveImplies Marker.innerAccess = true :=
  permissive_implies_catalogue Marker.innerAccess (by decide) (by decide)
    (by decide) (by decide)

/-- A capability declaration naming the unknown capability "bogus" between
two valid entries, for C3. -/
def unknownCapInput : DeriveInput :=
  { ident := "FooTag",
    attrs := [{ name := "capability",
                idents := ["inner_access", "bogus", "from_inner"] }] }

/-- Counterexample to C3 as stated: with the capability list
(inner_access, bogus, from_inner), the generator emits the grant for the
entry before the unknown name and the compile error, but the valid entry
after the unknown name is dropped — not every other valid entry of the
declaration is honored. -/
theorem unknown_capability_drops_later_entries :
    derive_tag unknownCapInput =
      [OutItem.grant "InnerAccess" "FooTag",
        OutItem.compileError (capabilityErr "bogus")] ∧
      OutItem.grant "FromInner" "FooTag" ∉ derive_tag unknownCapInput :=
  ⟨rfl, by decide⟩

/-- C3 (amended): an unknown name in a capability list makes the generator
fail at declaration-processing time with an error naming the unrecognized
identifier under its category, emits no grant for that entry, honors the
valid entries preceding it in the same list, drops the entries following it
in that list, and leaves the other declaration lists to be processed
independently. -/
theorem unknown_capability_amended (d : DeriveInput) (a : Attribute)
    (pre post : List String) (bad : String)
    (hfa : find_attr d "capability" = some a)
    (hsplit : a.idents = pre ++ bad :: post)
    (hpre : ∀ v ∈ pre, (capabilityLookup v).isSome = true)
    (hbad : capabilityLookup bad = none) :
    handle_capability d =
      pre.map (fun v =>
          OutItem.grant ((capabilityLookup v).getD "") d.ident) ++
        [OutItem.compileError (capabilityErr bad)] ∧
      (find_attr d "permissive" = none →
        derive_tag d =
          handle_capability d ++ handle_implement d ++
            handle_transparent d) := by
  constructor
  · unfold handle_capability
    rw [hfa]
    dsimp only
    rw [hsplit,
      parseNestedMeta_valid_prefix capabilityLookup capabilityErr d.ident
        pre (bad :: post) hpre]
    simp [parseNestedMeta, hbad]
  · intro hp
    have hperm : handle_permissive d = (false, []) := by
      unfold handle_permissive
      rw [hp]
    simp [derive_tag, hperm]

/-- Witness for C3 (amended) at the concrete declaration of
`unknownCapInput`. -/
theorem unknown_capability_amended_witness :
    handle_capability unknownCapInput =
      [OutItem.grant "InnerAccess" "FooTag",
        OutItem.compileError (capabilityErr "bogus")] := by
  have h := (unknown_capability_amended unknownCapInput
      { name := "capability",
        idents := ["inner_access", "bogus", "from_inner"] }
      ["inner_access"] ["from_inner"] "bogus" rfl rfl (by decide) rfl).1
  simpa using h

/-- C4: when the permissive flag appears together with any other attribute
block on the same brand type, the generator emits exactly the
conflicting-declaration compile error and no grant at all for that brand
type. -/
theorem permissive_conflict_rejected (d : DeriveInput) (a b : Attribute)
    (ha : a ∈ d.attrs) (han : a.name = "permissive")
    (hb : b ∈ d.attrs) (hbn : b.name ≠ "permissive") :
    derive_tag d = [OutItem.compileError permissiveOnlyMsg] ∧
      ∀ tr tg, OutItem.grant tr tg ∉ derive_tag d := by
  have hfind : (find_attr d "permissive").isSome = true := by
    unfold find_attr
    rw [List.find?_isSome]
    exact ⟨a, ha, by simp [han]⟩
  have hlen : d.attrs.length > 1 := by
    rcases hattrs : d.attrs with _ | ⟨x, _ | ⟨y, rest⟩⟩
    · rw [hattrs] at ha
      cases ha
    · rw [hattrs] at ha hb
      have hax : a = x := by simpa using ha
      have hbx : b = x := by simpa using hb
      rw [hax] at han
      rw [hbx] at hbn
      exact absurd han hbn
    · simp
  have hperm : handle_permissive d =
      (true, [OutItem.compileError permissiveOnlyMsg]) := by
    unfold handle_permissive
    cases hfa : find_attr d "permissive" with
    | none => rw [hfa] at hfind; simp at hfind
    | some attr => simp [hlen]
  have hmain : derive_tag d = [OutItem.compileError permissiveOnlyMsg] := by
    simp [derive_tag, hperm]
  exact ⟨hmain, by simp [hmain]⟩

/-- A brand-type declaration combining the permissive flag with an implement
list, for the C4 witness. -/
def permConflictInput : DeriveInput :=
  { ident := "HostTag",
    attrs := [{ name := "permissive", idents := [] },
              { name := "implement", idents := ["Clone"] }] }

/-- Witness for C4 at the concrete conflicting declaration of
`permConflictInput`. -/
theorem permissive_conflict_rejected_witness :
    derive_tag permConflictInput =
      [OutItem.compileError permissiveOnlyMsg] :=
  (permissive_conflict_rejected permConflictInput
    { name := "permissive", idents := [] }
    { name := "implement", idents := ["Clone"] }
    (by decide) rfl (by decide) (by decide)).1

/-- A capability declaration requesting inner_access twice, for C8. -/
def dupCapInput : DeriveInput :=
  { ident := "FooTag",
    attrs := [{ name := "capability",
                idents := ["inner_access", "inner_access"] }] }

/-- The same declaration requesting inner_access once, for C8. -/
def singleCapInput : DeriveInput :=
  { ident := "FooTag",
    attrs := [{ name := "capability", idents := ["inner_access"] }] }

/-- Counterexample to C8 as stated: requesting the same capability twice
emits the identical grant statement twice (a conflicting duplicate impl
downstream), which differs from the emission of the declaration requesting
it once — a duplicate request is not a harmless no-op. -/
theorem duplicate_request_not_noop :
    derive_tag dupCapInput =
      [OutItem.grant "InnerAccess" "FooTag",
        OutItem.grant "InnerAccess" "FooTag"] ∧
      derive_tag singleCapInput = [OutItem.grant "InnerAccess" "FooTag"] ∧
      derive_tag dupCapInput ≠ derive_tag singleCapInput :=
  ⟨rfl, rfl, by decide⟩

/-- C8 (amended): emission is per-item, not set-based. The emission depends
only on the brand type's name and on which attribute block is found for
each of the four recognized names, not on the order of the blocks in the
declaration; every recognized item of a list emits exactly one grant per
occurrence; and a capability requested twice has its grant emitted twice
rather than being a no-op. -/
theorem emission_per_item :
    (∀ d e : DeriveInput, d.ident = e.ident →
      find_attr d "permissive" = none → find_attr e "permissive" = none →
      find_attr d "capability" = find_attr e "capability" →
      find_attr d "implement" = find_attr e "implement" →
      find_attr d "transparent" = find_attr e "transparent" →
      derive_tag d = derive_tag e) ∧
    (∀ (target : String) (l : List String),
      (∀ v ∈ l, (capabilityLookup v).isSome = true) →
      parseNestedMeta capabilityLookup capabilityErr target l =
        l.map (fun v => OutItem.grant ((capabilityLookup v).getD "") target)) ∧
    derive_tag dupCapInput =
      [OutItem.grant "InnerAccess" "FooTag",
        OutItem.grant "InnerAccess" "FooTag"] := by
  refine ⟨?_, ?_, rfl⟩
  · intro d e hid hdp hep hc hi ht
    have hdperm : handle_permissive d = (false, []) := by
      unfold handle_permissive
      rw [hdp]
    have heperm : handle_permissive e = (false, []) := by
      unfold handle_permissive
      rw [hep]
    simp [derive_tag, hdperm, heperm, handle_capability, handle_implement,
      handle_transparent, hc, hi, ht, hid]
  · intro target l hl
    have h := parseNestedMeta_valid_prefix capabilityLookup capabilityErr
      target l [] hl
    simpa [parseNestedMeta] using h

/-- Two declarations with the same lists in swapped block order, for the C8
witness. -/
def twoListInputA : DeriveInput :=
  { ident := "BarTag",
    attrs := [{ name := "capability", idents := ["inner_access"] },
              { name := "implement", idents := ["Clone"] }] }

/-- Block-order-swapped version of `twoListInputA`. -/
def twoListInputB : DeriveInput :=
  { ident := "BarTag",
    attrs := [{ name := "implement", idents := ["Clone"] },
              { name := "capability", idents := ["inner_access"] }] }

/-- Witness for C8 (amended): swapping the order of the capability and
implement blocks leaves the emission unchanged. -/
theorem emission_per_item_witness :
    derive_tag twoListInputA = derive_tag twoListInputB :=
  emission_per_item.1 twoListInputA twoListInputB rfl rfl rfl rfl rfl rfl

end TaggedTypes
